import Mathlib

/-!
Shallow embedding of the bme590final image-tracking service:
`processing.py` (class `Processing`, pixel-filter preconditions) and
`database.py` (class `ImageProcessingDB`, record-store bookkeeping).

Python exceptions are modelled by the `PyError` type carried in `Except`;
stateful database methods return the (possibly mutated) store together with
an `Except` result, because a raised exception does not roll back document
writes that already happened.  Pixel values are modelled as exact rationals.
-/

/-- The exception kinds raised by the two modules: the built-in Python
errors plus the domain-specific `custom_errors.GrayscaleError`. -/
inductive PyError where
  | typeError (msg : String)
  | attributeError (msg : String)
  | valueError (msg : String)
  | indexError (msg : String)
  | grayscaleError (msg : String)
deriving Repr, DecidableEq

/-- A numpy ndarray: a shape (list of dimension sizes; its length is the
rank) and the flattened pixel data, with intensities as exact rationals. -/
structure NDArray where
  shape : List Nat
  data : List ℚ
deriving Repr, DecidableEq

namespace Processing

/-- `Processing._check_image_type`: requires the input to be a
`numpy.ndarray`.  In this embedding the argument is an `NDArray` by type,
so the check always succeeds; it is kept as a definition to mirror the
call structure of the source. -/
def check_image_type (_image : NDArray) : Except PyError Bool :=
  Except.ok true

/-- `Processing._check_image_shape`: the array rank must be 2 (grayscale)
or 3 (color), otherwise `ValueError` is raised. -/
def check_image_shape (image : NDArray) : Except PyError Bool :=
  if image.shape.length ≠ 2 ∧ image.shape.length ≠ 3 then
    Except.error (PyError.valueError "Dimensions of input array incorrect")
  else
    Except.ok true

/-- `Processing._check_grayscale`: a rank-3 (color) array raises the
domain-specific `GrayscaleError`. -/
def check_grayscale (image : NDArray) : Except PyError Bool :=
  if image.shape.length = 3 then
    Except.error (PyError.grayscaleError "Image is a color image")
  else
    Except.ok true

/-- `skimage.exposure.equalize_hist`: external library code, out of scope
per the spec (the filter math is owned by the imaging library).  Placeholder
transform; the verified claims only concern the precondition path. -/
def exposure_equalize_hist (image : NDArray) : NDArray :=
  image

/-- `skimage.util.invert` on a float image (the default unsigned-float
branch): every intensity v becomes 1 - v; the shape is unchanged. -/
def util_invert (image : NDArray) : NDArray :=
  { image with data := image.data.map (fun v => 1 - v) }

/-- `Processing.hist_eq`: type, shape and grayscale checks, then histogram
equalization. -/
def hist_eq (image : NDArray) : Except PyError NDArray :=
  match check_image_type image with
  | Except.error e => Except.error e
  | Except.ok _ =>
  match check_image_shape image with
  | Except.error e => Except.error e
  | Except.ok _ =>
  match check_grayscale image with
  | Except.error e => Except.error e
  | Except.ok _ => Except.ok (exposure_equalize_hist image)

/-- `Processing.reverse_video`: type, shape and grayscale checks, then
intensity inversion via `skimage.util.invert`. -/
def reverse_video (image : NDArray) : Except PyError NDArray :=
  match check_image_type image with
  | Except.error e => Except.error e
  | Except.ok _ =>
  match check_image_shape image with
  | Except.error e => Except.error e
  | Except.ok _ =>
  match check_grayscale image with
  | Except.error e => Except.error e
  | Except.ok _ => Except.ok (util_invert image)

end Processing

/-- A dynamically-typed Python value, as far as `database.py` inspects one:
strings, integers, dictionaries with string keys, and `None` (standing for
any value of a type the code never matches). -/
inductive PyVal where
  | str (s : String)
  | int (n : Int)
  | dict (entries : List (String × PyVal))
  | none

namespace PyVal

/-- `isinstance(v, dict)`. -/
def isDict : PyVal → Bool
  | dict _ => true
  | _ => false

/-- The entries when the value is a dict, else the empty association list. -/
def entries : PyVal → List (String × PyVal)
  | dict es => es
  | _ => []

/-- `k in v.keys()` for a dict value. -/
def hasKey (v : PyVal) (k : String) : Bool :=
  (v.entries.find? (fun p => p.1 == k)).isSome

/-- `v[k]`: the first binding of `k`, or `none` when absent (the code only
subscripts keys it has already checked for). -/
def get (v : PyVal) (k : String) : PyVal :=
  match v.entries.find? (fun p => p.1 == k) with
  | Option.some p => p.2
  | Option.none => PyVal.none

/-- `isinstance(v, str)` / `type(v) == str`. -/
def isStr : PyVal → Bool
  | str _ => true
  | _ => false

/-- `isinstance(v, int)`. -/
def isInt : PyVal → Bool
  | int _ => true
  | _ => false

/-- The carried string; total with default `""`, used only under an
`isStr` guard (mirroring dynamic typing). -/
def getStr : PyVal → String
  | str s => s
  | _ => ""

/-- The carried integer (`int(v)` on an int is the identity); total with
default `0`, used only under an `isInt` guard. -/
def getInt : PyVal → Int
  | int n => n
  | _ => 0

end PyVal

/-- The `Image` document (`database.py`, class `Image`).  The `image`
pixel-payload field is commented out at the construction site and never
stored; `width`, `height` and `format` are declared but never assigned, so
they are omitted.  `image_id` is the primary key. -/
structure Image where
  image_id : String
  user_id : String
  timestamp : Nat
  description : String
  parent_id : String
  child_ids : List String
  process_history : List String
  processing_time : Int
  process : String
deriving Repr, DecidableEq

/-- The `User` document (`database.py`, class `User`): `user_id` is the
primary key and `uploads` maps an upload-root image id to the most recent
descendant id (a `DictField`, modelled as an association list; its value
for a freshly constructed user is the empty dict). -/
structure User where
  user_id : String
  uploads : List (String × String)
deriving Repr, DecidableEq

/-- The document store: the `Image` and `User` collections, in insertion
order (`objects.all()` iterates them in this order). -/
structure DBState where
  images : List Image
  users : List User
deriving Repr, DecidableEq

/-- A value flowing into `image_to_json`: either an `Image` document or a
Python bool (which is what `remove_image` actually passes). -/
inductive PyObj where
  | image (i : Image)
  | bool (b : Bool)
deriving Repr, DecidableEq

/-- The reduced representation returned by `image_to_json`: only
`image_id` and `user_id`. -/
structure ImageJson where
  image_id : String
  user_id : String
deriving Repr, DecidableEq

/-- The reduced representation returned by `user_to_json`: only
`user_id`. -/
structure UserJson where
  user_id : String
deriving Repr, DecidableEq

/-- `pymodm` `save()` on an `Image`: upsert by the `image_id` primary key —
replace every stored document with that key, or append when absent. -/
def save_image (S : DBState) (i : Image) : DBState :=
  if S.images.any (fun v => v.image_id == i.image_id) then
    { S with images :=
        S.images.map (fun v => if v.image_id == i.image_id then i else v) }
  else
    { S with images := S.images ++ [i] }

/-- `pymodm` `save()` on a `User`: upsert by the `user_id` primary key. -/
def save_user (S : DBState) (u : User) : DBState :=
  if S.users.any (fun v => v.user_id == u.user_id) then
    { S with users :=
        S.users.map (fun v => if v.user_id == u.user_id then u else v) }
  else
    { S with users := S.users ++ [u] }

/-- Python dict assignment `d[k] = v`: replace the binding when the key is
present, append it otherwise. -/
def dict_set (d : List (String × String)) (k v : String) :
    List (String × String) :=
  if d.any (fun p => p.1 == k) then
    d.map (fun p => if p.1 == k then (k, v) else p)
  else
    d ++ [(k, v)]

namespace ImageProcessingDB

/-- `ImageProcessingDB.image_to_json`: builds the reduced json by reading
`.image_id` and `.user_id` off the argument.  When the argument is a bool
(as `remove_image` passes), the attribute access raises
`AttributeError`. -/
def image_to_json : PyObj → Except PyError ImageJson
  | PyObj.image i => Except.ok { image_id := i.image_id, user_id := i.user_id }
  | PyObj.bool _ =>
      Except.error (PyError.attributeError
        "bool object has no attribute image_id")

/-- `ImageProcessingDB.user_to_json`. -/
def user_to_json (u : User) : UserJson :=
  { user_id := u.user_id }

/-- `ImageProcessingDB.find_image`: linear scan of the `Image` collection,
first document whose `image_id` equals the argument, else `None`. -/
def find_image (S : DBState) (image_id : String) : Option Image :=
  S.images.find? (fun i => i.image_id == image_id)

/-- `ImageProcessingDB.find_user`: linear scan of the `User` collection. -/
def find_user (S : DBState) (user_id : String) : Option User :=
  S.users.find? (fun u => u.user_id == user_id)

/-- `ImageProcessingDB.add_user`: raises `ValueError` when the user already
exists, otherwise saves a fresh user (empty uploads dict) and returns its
json — note: the JSON dict, not the `User` object. -/
def add_user (S : DBState) (user_id : String) :
    DBState × Except PyError UserJson :=
  match find_user S user_id with
  | Option.some _ => (S, Except.error (PyError.valueError "User already exists!"))
  | Option.none =>
      let u : User := { user_id := user_id, uploads := [] }
      (save_user S u, Except.ok (user_to_json u))

/-- `ImageProcessingDB.update_user_uploads`: reads `process_history[0]` and
`process_history[-1]` (an empty history raises `IndexError`); when the user
exists, sets `uploads[root_id] = recent_id` and saves; when absent, the
code binds the result of `add_user` — a JSON dict — to `user`, so the
subsequent `user.uploads` attribute access raises `AttributeError` after
the bare user record has already been saved. -/
def update_user_uploads (S : DBState) (user_id : String)
    (process_history : List String) : DBState × Except PyError UserJson :=
  match process_history with
  | [] => (S, Except.error (PyError.indexError "list index out of range"))
  | root_id :: rest =>
      let recent_id := (root_id :: rest).getLast (List.cons_ne_nil root_id rest)
      match find_user S user_id with
      | Option.some user =>
          let user2 := { user with uploads := dict_set user.uploads root_id recent_id }
          (save_user S user2, Except.ok (user_to_json user2))
      | Option.none =>
          let created := add_user S user_id
          (created.1, Except.error (PyError.attributeError
            "dict object has no attribute uploads"))

/-- `ImageProcessingDB._add_child`: re-fetches the parent document, appends
the child id to its `child_ids` and saves; returns `None` when the parent
is absent. -/
def add_child (S : DBState) (child_id : String) (parent_id : String) :
    DBState × Option String :=
  match find_image S parent_id with
  | Option.some parent_image =>
      let p2 := { parent_image with child_ids := parent_image.child_ids ++ [child_id] }
      (save_image S p2, Option.some child_id)
  | Option.none => (S, Option.none)

/-- `[func for func in dir(Processing) if callable(getattr(Processing, func))]`:
the attribute names of the `Processing` class whose values are callable.
These are the eleven methods defined in `processing.py` (seven public
operations, three private check helpers, `__init__`) together with the
callable members every CPython 3 class inherits from `object`
(`__dict__`, `__doc__`, `__module__` and `__weakref__` are the
non-callable ones `dir` also reports). -/
def processing_dir_callables : List String :=
  ["hist_eq", "contrast_stretch", "log_compression", "reverse_video",
   "blur", "sharpen", "histogram_gray",
   "_check_image_type", "_check_image_shape", "_check_grayscale",
   "__init__", "__class__", "__delattr__", "__dir__", "__eq__",
   "__format__", "__ge__", "__getattribute__", "__gt__", "__hash__",
   "__init_subclass__", "__le__", "__lt__", "__ne__", "__new__",
   "__reduce__", "__reduce_ex__", "__repr__", "__setattr__",
   "__sizeof__", "__str__", "__subclasshook__"]

/-- `ImageProcessingDB.valid_process`: the process name must appear among
the callable attributes of `Processing`, or be the literal `"upload"`. -/
def valid_process (process : String) : Bool :=
  let valid_processes := processing_dir_callables ++ ["upload"]
  if process ∉ valid_processes then false else true

/-- `ImageProcessingDB._image_parameter_check`: the eager validation chain
run by `add_image` before any mutation, raising a typed error at the first
violated constraint and returning `image_info` unchanged when all pass. -/
def image_parameter_check (image_info : PyVal) :
    Except PyError PyVal :=
  if image_info.isDict = false then
    Except.error (PyError.typeError "image_info must be type dict.")
  else if image_info.hasKey "image_id" = false then
    Except.error (PyError.attributeError "image_info must have image_id.")
  else if (image_info.get "image_id").isStr = false then
    Except.error (PyError.valueError "image_id must be type str.")
  else if image_info.hasKey "image_data" = false then
    Except.error (PyError.attributeError "image_info must have image_data.")
  else if (image_info.get "image_data").isStr = false then
    Except.error (PyError.typeError "image_data must be type str.")
  else if image_info.hasKey "processing_time" = false then
    Except.error (PyError.attributeError
      "image_info must have processing_time.")
  else if (image_info.get "processing_time").isInt = false then
    Except.error (PyError.typeError
      "processing_time must be type int in milliseconds.")
  else if image_info.hasKey "process" = false then
    Except.error (PyError.attributeError "image_info must have process.")
  else if (image_info.get "process").isStr = false then
    Except.error (PyError.typeError "process must be type str.")
  else if valid_process ((image_info.get "process").getStr) = false then
    Except.error (PyError.valueError "process invalid.")
  else
    Except.ok image_info

/-- `ImageProcessingDB.add_image`: validates `image_info`; resolves the
parent when a `parent_id` key is present (an absent parent makes the
unguarded `parent_image.process_history` access raise `AttributeError`)
and appends the new id to the inherited history and to the parent's
stored `child_ids`; otherwise starts a fresh history with `parent_id`
`"root"`; updates the owning user's uploads (any exception there, e.g.
for a user not yet in the store, propagates after its partial writes);
then saves the new `Image` and returns its reduced json.  `current_time`
stands for `datetime.datetime.now()`. -/
def add_image (S : DBState) (current_time : Nat) (user_id : String)
    (image_info : PyVal) : DBState × Except PyError ImageJson :=
  match image_parameter_check image_info with
  | Except.error e => (S, Except.error e)
  | Except.ok info =>
      let result :=
        if info.hasKey "parent_id" then
          match find_image S ((info.get "parent_id").getStr) with
          | Option.none =>
              Except.error (PyError.attributeError
                "NoneType object has no attribute process_history")
          | Option.some parent_image =>
              let ph := parent_image.process_history ++ [(info.get "image_id").getStr]
              let stepped := add_child S ((info.get "image_id").getStr)
                ((info.get "parent_id").getStr)
              Except.ok (stepped.1, ph, (info.get "parent_id").getStr)
        else
          Except.ok (S, [(info.get "image_id").getStr], "root")
      match result with
      | Except.error e => (S, Except.error e)
      | Except.ok (S1, process_history, parent_id) =>
          let processing_time :=
            if info.hasKey "processing_time" then
              (info.get "processing_time").getInt
            else (-1 : Int)
          let upd := update_user_uploads S1 user_id process_history
          match upd.2 with
          | Except.error e => (upd.1, Except.error e)
          | Except.ok _ =>
              let description :=
                if info.hasKey "description" = false then "None"
                else (info.get "description").getStr
              let i : Image :=
                { image_id := (info.get "image_id").getStr,
                  user_id := user_id,
                  timestamp := current_time,
                  description := description,
                  parent_id := parent_id,
                  child_ids := [],
                  process_history := process_history,
                  processing_time := processing_time,
                  process := (info.get "process").getStr }
              (save_image upd.1 i, image_to_json (PyObj.image i))

/-- `ImageProcessingDB.remove_image`: deletes every matching document while
scanning, tracking a `removed` boolean — and then hands that *boolean* to
`image_to_json`. -/
def remove_image (S : DBState) (image_id : String) :
    DBState × Except PyError ImageJson :=
  let removed := S.images.any (fun i => i.image_id == image_id)
  let S2 := { S with images := S.images.filter (fun i => !(i.image_id == image_id)) }
  (S2, image_to_json (PyObj.bool removed))

/-- `ImageProcessingDB.find_image_child`: looks the image up and returns its
`child_ids` when that list is truthy, else `[]`; when no image is found the
unguarded `image.child_ids` access on `None` raises `AttributeError`. -/
def find_image_child (S : DBState) (image_id : String) :
    Except PyError (List String) :=
  match find_image S image_id with
  | Option.none =>
      Except.error (PyError.attributeError
        "NoneType object has no attribute child_ids")
  | Option.some image =>
      if image.child_ids.isEmpty = false then Except.ok image.child_ids
      else Except.ok []

end ImageProcessingDB

/-- The public operation names of the `Processing` class, as the claim
wording delimits the Filter Library public surface (spec refinement
definition, for comparison with `valid_process`). -/
def processing_public_operations : List String :=
  ["hist_eq", "contrast_stretch", "log_compression", "reverse_video",
   "blur", "sharpen", "histogram_gray"]

/-- An `image_info` violating at least one constraint of the validation
chain, in the claim wording: not a dict, or missing one of `image_id`,
`image_data`, `processing_time`, `process`, or a field of the wrong type,
or an unrecognized process name. -/
def MalformedImageInfo (info : PyVal) : Prop :=
  info.isDict = false ∨
  info.hasKey "image_id" = false ∨
  (info.get "image_id").isStr = false ∨
  info.hasKey "image_data" = false ∨
  (info.get "image_data").isStr = false ∨
  info.hasKey "processing_time" = false ∨
  (info.get "processing_time").isInt = false ∨
  info.hasKey "process" = false ∨
  (info.get "process").isStr = false ∨
  ImageProcessingDB.valid_process ((info.get "process").getStr) = false

/-- The error kinds the validation chain is allowed to raise per the claim:
`TypeError`, `AttributeError` or `ValueError`. -/
def is_typed_input_error : PyError → Bool
  | PyError.typeError _ => true
  | PyError.attributeError _ => true
  | PyError.valueError _ => true
  | _ => false

/-- A valid `image_info` with no `parent_id` key, used as a concrete
input. -/
def sample_info_root : PyVal := PyVal.dict
  [("image_id", PyVal.str "i1"), ("image_data", PyVal.str "d"),
   ("processing_time", PyVal.int 3), ("process", PyVal.str "upload")]

/-- A valid `image_info` whose `parent_id` names the stored image
`sample_parent`. -/
def sample_info_child : PyVal := PyVal.dict
  [("image_id", PyVal.str "c1"), ("image_data", PyVal.str "d"),
   ("processing_time", PyVal.int 3), ("process", PyVal.str "blur"),
   ("parent_id", PyVal.str "p1")]

/-- A valid `image_info` whose `image_id` coincides with its `parent_id`
(`p1` declared as its own parent): the validation chain accepts it, and the
named parent is present in the stores used below. -/
def sample_info_self : PyVal := PyVal.dict
  [("image_id", PyVal.str "p1"), ("image_data", PyVal.str "d"),
   ("processing_time", PyVal.int 3), ("process", PyVal.str "blur"),
   ("parent_id", PyVal.str "p1")]

/-- A stored root image with no children, used as a concrete parent. -/
def sample_parent : Image :=
  { image_id := "p1", user_id := "u1", timestamp := 0,
    description := "None", parent_id := "root", child_ids := [],
    process_history := ["p1"], processing_time := 3, process := "upload" }

/-- A stored image that already has one child id. -/
def sample_parent_with_child : Image :=
  { sample_parent with child_ids := ["c1"] }

/-- A stored user owning the `p1` lineage. -/
def sample_user : User := { user_id := "u1", uploads := [("p1", "p1")] }

namespace ImageProcessingDB

/-- Saving a user does not touch the image collection. -/
theorem save_user_images (S : DBState) (u : User) :
    (save_user S u).images = S.images := by
  unfold save_user
  split <;> rfl

/-- `add_user` does not touch the image collection. -/
theorem add_user_fst_images (S : DBState) (user_id : String) :
    ((add_user S user_id).1).images = S.images := by
  unfold add_user
  cases h : find_user S user_id <;> simp [save_user_images]

/-- `update_user_uploads` does not touch the image collection. -/
theorem update_user_uploads_fst_images (S : DBState) (user_id : String)
    (ph : List String) :
    ((update_user_uploads S user_id ph).1).images = S.images := by
  unfold update_user_uploads
  cases ph with
  | nil => rfl
  | cons a t =>
      cases h : find_user S user_id <;>
        simp [h, save_user_images, add_user_fst_images]

/-- Replacing every image with a given id in a list and then looking that
id up finds the replacement exactly when some image carried the id. -/
theorem find_replace_self (l : List Image) (i : Image) :
    (l.map (fun v => if v.image_id == i.image_id then i else v)).find?
        (fun v => v.image_id == i.image_id) =
      if l.any (fun v => v.image_id == i.image_id) then Option.some i
      else Option.none := by
  induction l with
  | nil => rfl
  | cons a t ih =>
      simp only [List.map_cons, List.any_cons]
      by_cases h : (a.image_id == i.image_id) = true
      · rw [if_pos h,
          List.find?_cons_of_pos (p := fun v => v.image_id == i.image_id)
            (a := i) _ (beq_self_eq_true i.image_id)]
        simp only [h, Bool.true_or, if_true]
      · have hb : (a.image_id == i.image_id) = false := by
          simpa using h
        rw [if_neg h,
          List.find?_cons_of_neg (p := fun v => v.image_id == i.image_id)
            (a := a) _ h,
          ih]
        simp only [hb, Bool.false_or]

/-- Looking up a different id is unaffected by the replacement map. -/
theorem find_replace_ne (l : List Image) (i : Image) (x : String)
    (h : ¬(x = i.image_id)) :
    (l.map (fun v => if v.image_id == i.image_id then i else v)).find?
        (fun v => v.image_id == x) =
      l.find? (fun v => v.image_id == x) := by
  induction l with
  | nil => rfl
  | cons a t ih =>
      simp only [List.map_cons]
      by_cases ha : a.image_id = i.image_id
      · have h1 : ¬((i.image_id == x) = true) := by
          simp only [beq_iff_eq]
          intro hh
          exact h hh.symm
        have h2 : ¬((a.image_id == x) = true) := by
          simp only [beq_iff_eq, ha]
          intro hh
          exact h hh.symm
        rw [if_pos (by simp [ha]),
          List.find?_cons_of_neg (p := fun v => v.image_id == x) (a := i) _ h1,
          List.find?_cons_of_neg (p := fun v => v.image_id == x) (a := a) _ h2,
          ih]
      · have hb : ¬((a.image_id == i.image_id) = true) := by
          simp only [beq_iff_eq]
          exact ha
        rw [if_neg hb]
        by_cases hp : (a.image_id == x) = true
        · rw [List.find?_cons_of_pos (p := fun v => v.image_id == x) (a := a) _ hp,
            List.find?_cons_of_pos (p := fun v => v.image_id == x) (a := a) _ hp]
        · rw [List.find?_cons_of_neg (p := fun v => v.image_id == x) (a := a) _ hp,
            List.find?_cons_of_neg (p := fun v => v.image_id == x) (a := a) _ hp,
            ih]

/-- After `save_image S i`, looking up the primary key of `i` yields `i`. -/
theorem find_image_save_image_self (S : DBState) (i : Image) :
    find_image (save_image S i) i.image_id = Option.some i := by
  unfold find_image save_image
  cases h : S.images.any (fun v => v.image_id == i.image_id) with
  | true =>
      simp only [h, if_true]
      rw [find_replace_self, h, if_pos rfl]
  | false =>
      simp only [h, Bool.false_eq_true, if_false]
      rw [List.find?_append]
      have hnone : S.images.find? (fun v => v.image_id == i.image_id) =
          Option.none := by
        rw [List.find?_eq_none]
        intro x hx hp
        have : S.images.any (fun v => v.image_id == i.image_id) = true :=
          List.any_eq_true.mpr ⟨x, hx, hp⟩
        rw [h] at this
        exact Bool.false_ne_true this
      rw [hnone]
      simp

/-- After `save_image S i`, looking up any other id is unchanged. -/
theorem find_image_save_image_ne (S : DBState) (i : Image) (x : String)
    (h : ¬(x = i.image_id)) :
    find_image (save_image S i) x = find_image S x := by
  unfold find_image save_image
  cases hA : S.images.any (fun v => v.image_id == i.image_id) with
  | true =>
      simp only [hA, if_true]
      exact find_replace_ne S.images i x h
  | false =>
      simp only [hA, Bool.false_eq_true, if_false]
      rw [List.find?_append]
      have hi : (i.image_id == x) = false := by
        simp only [beq_eq_false_iff_ne, ne_eq]
        intro hh
        exact h hh.symm
      simp [hi]

/-- After deleting every image matching an id, none matches it. -/
theorem any_filter_not (l : List Image) (x : String) :
    ((l.filter (fun i => !(i.image_id == x))).any
      (fun i => i.image_id == x)) = false := by
  induction l with
  | nil => rfl
  | cons a t ih =>
      by_cases h : (a.image_id == x) = true
      · simp [h, ih]
      · simp only [Bool.not_eq_true] at h
        simp [h, ih]

end ImageProcessingDB

open ImageProcessingDB

/-- Inverting intensities twice is the identity on the pixel list. -/
theorem map_one_sub_involution (l : List ℚ) :
    (l.map (fun v => 1 - v)).map (fun v => 1 - v) = l := by
  rw [List.map_map]
  have hfun : ((fun v : ℚ => 1 - v) ∘ fun v : ℚ => 1 - v) = id := by
    funext v
    simp
  rw [hfun, List.map_id]

/-- `util_invert` is an involution on arrays. -/
theorem util_invert_involution (image : NDArray) :
    Processing.util_invert (Processing.util_invert image) = image := by
  cases image with
  | mk shape data =>
      show NDArray.mk shape ((data.map (fun v => 1 - v)).map (fun v => 1 - v)) =
        NDArray.mk shape data
      rw [map_one_sub_involution]

/-- On a rank-2 array all three preconditions of `reverse_video` pass and
the result is the inverted array. -/
theorem reverse_video_grayscale_ok (a : NDArray) (ha : a.shape.length = 2) :
    Processing.reverse_video a = Except.ok (Processing.util_invert a) := by
  have hshape : Processing.check_image_shape a = Except.ok true := by
    unfold Processing.check_image_shape
    rw [if_neg (fun hc => hc.1 ha)]
  have hgray : Processing.check_grayscale a = Except.ok true := by
    unfold Processing.check_grayscale
    rw [if_neg (by rw [ha]; decide)]
  unfold Processing.reverse_video Processing.check_image_type
  rw [hshape, hgray]

/-- C3: the lazy-creation path of `update_user_uploads` is broken.  On a
store with no users, `update_user_uploads "u1" ["a"]` saves the bare user
record, but then raises `AttributeError`, because `add_user` returns its
JSON dict rather than the saved `User` object; the uploads mapping is never
set to `history[0] -> history[-1]`, contradicting the claim and the
docstrings of both methods. -/
theorem C3_update_user_uploads_lazy_creation_crashes :
    update_user_uploads { images := [], users := [] } "u1" ["a"] =
      ({ images := [], users := [{ user_id := "u1", uploads := [] }] },
        Except.error (PyError.attributeError
          "dict object has no attribute uploads")) := by
  rfl

/-- C4 counterexample: `"_check_grayscale"` is neither `"upload"` nor a
public operation name of the Filter Library, yet `valid_process` accepts
it, refuting the claim that `valid_process` of any other string is
`False`. -/
theorem C4_counterexample_private_helper_accepted :
    valid_process "_check_grayscale" = true ∧
      ¬("_check_grayscale" = "upload" ∨
        "_check_grayscale" ∈ processing_public_operations) :=
  ⟨by decide, by decide⟩

/-- C4 (amended): `valid_process p` returns `true` iff `p` is `"upload"`
or the name of *any* callable attribute of `Processing` — the public
operations, but also the private check helpers and the dunder methods
inherited from `object`; in particular `"upload"` and every public
operation name are accepted, and `"nonexistent_fn"` is rejected. -/
theorem C4_valid_process_amended :
    (∀ p : String, valid_process p = true ↔
        (p ∈ processing_dir_callables ∨ p = "upload")) ∧
      valid_process "upload" = true ∧
      processing_public_operations.all (fun p => valid_process p) = true ∧
      valid_process "nonexistent_fn" = false := by
  refine ⟨?_, by decide, by decide, by decide⟩
  intro p
  have hiff : valid_process p = true ↔
      p ∈ processing_dir_callables ++ ["upload"] := by
    simp only [valid_process]
    by_cases h : p ∈ processing_dir_callables ++ ["upload"]
    · rw [if_neg (not_not_intro h)]
      simp [h]
    · rw [if_pos h]
      simp [h]
  rw [hiff, List.mem_append]
  simp

/-- C5: `remove_image` on an id that is not in the store leaves the store
unchanged but, instead of returning a falsy result without raising, raises
`AttributeError`: the `removed` boolean `False` is handed to
`image_to_json`, which dereferences `.image_id` on it. -/
theorem C5_remove_image_missing_id_raises :
    remove_image { images := [sample_parent], users := [] } "nonexistent" =
      ({ images := [sample_parent], users := [] },
        Except.error (PyError.attributeError
          "bool object has no attribute image_id")) := by
  rfl

/-- C8: on a rank-3 (3-channel) input both grayscale-only operations,
`hist_eq` and `reverse_video`, fail with the distinct `GrayscaleError`
raised by `_check_grayscale`, not an ordinary type or value error. -/
theorem C8_grayscale_ops_reject_color (image : NDArray)
    (h : image.shape.length = 3) :
    Processing.hist_eq image =
        Except.error (PyError.grayscaleError "Image is a color image") ∧
      Processing.reverse_video image =
        Except.error (PyError.grayscaleError "Image is a color image") := by
  have hshape : Processing.check_image_shape image = Except.ok true := by
    unfold Processing.check_image_shape
    rw [if_neg]
    intro hc
    exact hc.2 h
  have hgray : Processing.check_grayscale image =
      Except.error (PyError.grayscaleError "Image is a color image") := by
    unfold Processing.check_grayscale
    rw [if_pos h]
  constructor
  · unfold Processing.hist_eq Processing.check_image_type
    rw [hshape, hgray]
  · unfold Processing.reverse_video Processing.check_image_type
    rw [hshape, hgray]

/-- C8 witness at a concrete 2x2x3 color array. -/
theorem C8_grayscale_ops_reject_color_witness :
    (NDArray.mk [2, 2, 3] []).shape.length = 3 ∧
      (Processing.hist_eq (NDArray.mk [2, 2, 3] []) =
          Except.error (PyError.grayscaleError "Image is a color image") ∧
        Processing.reverse_video (NDArray.mk [2, 2, 3] []) =
          Except.error (PyError.grayscaleError "Image is a color image")) :=
  ⟨by decide, C8_grayscale_ops_reject_color (NDArray.mk [2, 2, 3] []) (by decide)⟩

/-- C9: `reverse_video` is an involution on grayscale (rank-2) arrays:
applying it twice returns the original image exactly (the rational-pixel
model makes the float-tolerance equality exact). -/
theorem C9_reverse_video_involution (image : NDArray)
    (h : image.shape.length = 2) :
    (Processing.reverse_video image).bind Processing.reverse_video =
      Except.ok image := by
  have hlen2 : (Processing.util_invert image).shape.length = 2 := h
  rw [reverse_video_grayscale_ok image h]
  show Processing.reverse_video (Processing.util_invert image) = Except.ok image
  rw [reverse_video_grayscale_ok _ hlen2, util_invert_involution]

/-- C9 witness at a concrete 1x2 grayscale array. -/
theorem C9_reverse_video_involution_witness :
    (NDArray.mk [1, 2] [0, 1/2]).shape.length = 2 ∧
      (Processing.reverse_video (NDArray.mk [1, 2] [0, 1/2])).bind
          Processing.reverse_video =
        Except.ok (NDArray.mk [1, 2] [0, 1/2]) :=
  ⟨by decide, C9_reverse_video_involution (NDArray.mk [1, 2] [0, 1/2]) (by decide)⟩

/-- C10: when `remove_image` finds a matching image, the deletion is
applied to the store, and the method then raises `AttributeError` anyway,
because it passes the boolean `True` to `image_to_json`, which dereferences
`.image_id` on it. -/
theorem C10_remove_image_found_raises (S : DBState) (image_id : String)
    (_h : S.images.any (fun i => i.image_id == image_id) = true) :
    remove_image S image_id =
        ({ S with images := S.images.filter (fun i => !(i.image_id == image_id)) },
          Except.error (PyError.attributeError
            "bool object has no attribute image_id")) ∧
      ((remove_image S image_id).1.images.any
        (fun i => i.image_id == image_id)) = false := by
  constructor
  · simp only [remove_image, image_to_json]
  · simp only [remove_image]
    exact any_filter_not S.images image_id

/-- C10 witness: a store holding exactly the image `p1`. -/
theorem C10_remove_image_found_raises_witness :
    (DBState.mk [sample_parent] []).images.any
        (fun i => i.image_id == "p1") = true ∧
      (remove_image (DBState.mk [sample_parent] []) "p1" =
          (DBState.mk ([sample_parent].filter (fun i => !(i.image_id == "p1"))) [],
            Except.error (PyError.attributeError
              "bool object has no attribute image_id")) ∧
        ((remove_image (DBState.mk [sample_parent] []) "p1").1.images.any
          (fun i => i.image_id == "p1")) = false) :=
  ⟨by decide,
    C10_remove_image_found_raises (DBState.mk [sample_parent] []) "p1" (by decide)⟩

/-- C6 counterexample: on a store without the requested image,
`find_image_child "x"` raises `AttributeError` (the unguarded
`image.child_ids` access on `None`), refuting the claim that the
nothing-found case returns the empty list without raising. -/
theorem C6_counterexample_missing_image_raises :
    find_image_child { images := [], users := [] } "x" =
      Except.error (PyError.attributeError
        "NoneType object has no attribute child_ids") := by
  rfl

/-- C6 (amended): when an image with the given id exists,
`find_image_child` returns its child-identifier list (the empty list when
it has no children); when no image is found, the method raises
`AttributeError` instead of returning the empty list. -/
theorem C6_find_image_child_amended (S : DBState) (image_id : String) :
    (∀ img : Image, find_image S image_id = Option.some img →
        find_image_child S image_id = Except.ok img.child_ids) ∧
      (find_image S image_id = Option.none →
        find_image_child S image_id = Except.error (PyError.attributeError
          "NoneType object has no attribute child_ids")) := by
  constructor
  · intro img himg
    unfold find_image_child
    rw [himg]
    show (if img.child_ids.isEmpty = false then Except.ok img.child_ids
      else Except.ok []) = Except.ok img.child_ids
    by_cases hc : img.child_ids.isEmpty = false
    · rw [if_pos hc]
    · have hnil : img.child_ids = [] := by
        rcases hempty : img.child_ids.isEmpty
        · exact absurd hempty hc
        · exact List.isEmpty_iff.mp hempty
      rw [if_neg hc, hnil]
  · intro hnone
    unfold find_image_child
    rw [hnone]

/-- C6 witness: the stored image `p1` has the one child `c1`. -/
theorem C6_find_image_child_amended_witness :
    find_image_child (DBState.mk [sample_parent_with_child] []) "p1" =
      Except.ok ["c1"] :=
  (C6_find_image_child_amended (DBState.mk [sample_parent_with_child] []) "p1").1
    sample_parent_with_child (by decide)

/-- The validation chain either raises one of the three typed input errors
(and the input is malformed), or returns the input unchanged with every
validated constraint holding. -/
theorem image_parameter_check_cases (info : PyVal) :
    (∃ e, image_parameter_check info = Except.error e ∧
        is_typed_input_error e = true ∧ MalformedImageInfo info) ∨
      (image_parameter_check info = Except.ok info ∧
        info.isDict = true ∧
        info.hasKey "image_id" = true ∧
        (info.get "image_id").isStr = true ∧
        info.hasKey "image_data" = true ∧
        (info.get "image_data").isStr = true ∧
        info.hasKey "processing_time" = true ∧
        (info.get "processing_time").isInt = true ∧
        info.hasKey "process" = true ∧
        (info.get "process").isStr = true ∧
        valid_process ((info.get "process").getStr) = true) := by
  unfold image_parameter_check
  by_cases h1 : info.isDict = false
  · rw [if_pos h1]
    exact Or.inl ⟨_, rfl, rfl, Or.inl h1⟩
  · rw [if_neg h1]
    have g1 := (Bool.eq_false_or_eq_true info.isDict).resolve_right h1
    by_cases h2 : info.hasKey "image_id" = false
    · rw [if_pos h2]
      exact Or.inl ⟨_, rfl, rfl, Or.inr (Or.inl h2)⟩
    · rw [if_neg h2]
      have g2 := (Bool.eq_false_or_eq_true (info.hasKey "image_id")).resolve_right h2
      by_cases h3 : (info.get "image_id").isStr = false
      · rw [if_pos h3]
        exact Or.inl ⟨_, rfl, rfl, Or.inr (Or.inr (Or.inl h3))⟩
      · rw [if_neg h3]
        have g3 := (Bool.eq_false_or_eq_true ((info.get "image_id").isStr)).resolve_right h3
        by_cases h4 : info.hasKey "image_data" = false
        · rw [if_pos h4]
          exact Or.inl ⟨_, rfl, rfl, Or.inr (Or.inr (Or.inr (Or.inl h4)))⟩
        · rw [if_neg h4]
          have g4 := (Bool.eq_false_or_eq_true (info.hasKey "image_data")).resolve_right h4
          by_cases h5 : (info.get "image_data").isStr = false
          · rw [if_pos h5]
            exact Or.inl ⟨_, rfl, rfl,
              Or.inr (Or.inr (Or.inr (Or.inr (Or.inl h5))))⟩
          · rw [if_neg h5]
            have g5 := (Bool.eq_false_or_eq_true ((info.get "image_data").isStr)).resolve_right h5
            by_cases h6 : info.hasKey "processing_time" = false
            · rw [if_pos h6]
              exact Or.inl ⟨_, rfl, rfl,
                Or.inr (Or.inr (Or.inr (Or.inr (Or.inr (Or.inl h6)))))⟩
            · rw [if_neg h6]
              have g6 := (Bool.eq_false_or_eq_true (info.hasKey "processing_time")).resolve_right h6
              by_cases h7 : (info.get "processing_time").isInt = false
              · rw [if_pos h7]
                exact Or.inl ⟨_, rfl, rfl,
                  Or.inr (Or.inr (Or.inr (Or.inr (Or.inr (Or.inr (Or.inl h7))))))⟩
              · rw [if_neg h7]
                have g7 := (Bool.eq_false_or_eq_true ((info.get "processing_time").isInt)).resolve_right h7
                by_cases h8 : info.hasKey "process" = false
                · rw [if_pos h8]
                  exact Or.inl ⟨_, rfl, rfl,
                    Or.inr (Or.inr (Or.inr (Or.inr (Or.inr (Or.inr (Or.inr (Or.inl h8)))))))⟩
                · rw [if_neg h8]
                  have g8 := (Bool.eq_false_or_eq_true (info.hasKey "process")).resolve_right h8
                  by_cases h9 : (info.get "process").isStr = false
                  · rw [if_pos h9]
                    exact Or.inl ⟨_, rfl, rfl,
                      Or.inr (Or.inr (Or.inr (Or.inr (Or.inr (Or.inr (Or.inr (Or.inr (Or.inl h9))))))))⟩
                  · rw [if_neg h9]
                    have g9 := (Bool.eq_false_or_eq_true ((info.get "process").isStr)).resolve_right h9
                    by_cases h10 : valid_process ((info.get "process").getStr) = false
                    · rw [if_pos h10]
                      exact Or.inl ⟨_, rfl, rfl,
                        Or.inr (Or.inr (Or.inr (Or.inr (Or.inr (Or.inr (Or.inr (Or.inr (Or.inr h10))))))))⟩
                    · rw [if_neg h10]
                      have g10 := (Bool.eq_false_or_eq_true (valid_process ((info.get "process").getStr))).resolve_right h10
                      exact Or.inr ⟨rfl, g1, g2, g3, g4, g5, g6, g7, g8, g9, g10⟩

/-- A malformed `image_info` always fails the validation chain, with one of
the three typed input errors. -/
theorem malformed_check_fails (info : PyVal) (h : MalformedImageInfo info) :
    ∃ e, image_parameter_check info = Except.error e ∧
      is_typed_input_error e = true := by
  rcases image_parameter_check_cases info with ⟨e, he, ht, _⟩ |
    ⟨_, g1, g2, g3, g4, g5, g6, g7, g8, g9, g10⟩
  · exact ⟨e, he, ht⟩
  · exfalso
    rcases h with hm|hm|hm|hm|hm|hm|hm|hm|hm|hm <;> simp_all

/-- C7: for every malformed `image_info` (not a dict, or missing
`image_id`, `image_data`, `processing_time` or `process`, or a field of
the wrong type, or an unrecognized process name), `add_image` raises a
typed validation error (`TypeError`, `AttributeError` or `ValueError`)
before performing any mutation: the store it returns is exactly the input
store. -/
theorem C7_add_image_malformed_rejected (S : DBState) (current_time : Nat)
    (user_id : String) (info : PyVal) (h : MalformedImageInfo info) :
    ∃ e, add_image S current_time user_id info = (S, Except.error e) ∧
      is_typed_input_error e = true := by
  obtain ⟨e, he, ht⟩ := malformed_check_fails info h
  refine ⟨e, ?_, ht⟩
  unfold add_image
  rw [he]

/-- C7 witness: a non-dict `image_info` against an empty store. -/
theorem C7_add_image_malformed_rejected_witness :
    MalformedImageInfo (PyVal.str "bad") ∧
      ∃ e, add_image (DBState.mk [] []) 0 "u1" (PyVal.str "bad") =
          (DBState.mk [] [], Except.error e) ∧
        is_typed_input_error e = true :=
  ⟨Or.inl rfl,
    C7_add_image_malformed_rejected (DBState.mk [] []) 0 "u1" (PyVal.str "bad")
      (Or.inl rfl)⟩

/-- Saving an image does not touch the user collection. -/
theorem save_image_users (S : DBState) (i : Image) :
    (save_image S i).users = S.users := by
  unfold save_image
  split <;> rfl

/-- Looking a user up is unaffected by an image save. -/
theorem find_user_save_image (S : DBState) (i : Image) (user_id : String) :
    find_user (save_image S i) user_id = find_user S user_id := by
  unfold find_user
  rw [save_image_users]

/-- Looking an image up is unaffected by a user save. -/
theorem find_image_save_user (S : DBState) (u : User) (image_id : String) :
    find_image (save_user S u) image_id = find_image S image_id := by
  unfold find_image
  rw [save_user_images]

/-- `update_user_uploads` on an existing user saves the updated uploads
dict and returns its json. -/
theorem update_user_uploads_found (S : DBState) (user_id : String)
    (root_id : String) (rest : List String) (u : User)
    (hu : find_user S user_id = Option.some u) :
    update_user_uploads S user_id (root_id :: rest) =
      (save_user S
          (User.mk u.user_id (dict_set u.uploads root_id
            ((root_id :: rest).getLast (List.cons_ne_nil root_id rest)))),
        Except.ok (user_to_json
          (User.mk u.user_id (dict_set u.uploads root_id
            ((root_id :: rest).getLast (List.cons_ne_nil root_id rest)))))) := by
  unfold update_user_uploads
  rw [hu]

/-- `update_user_uploads` on an existing user, for any non-empty
history. -/
theorem update_user_uploads_found_ne (S : DBState) (user_id : String)
    (ph : List String) (u : User) (hne : ph ≠ [])
    (hu : find_user S user_id = Option.some u) :
    update_user_uploads S user_id ph =
      (save_user S
          (User.mk u.user_id (dict_set u.uploads (ph.head hne) (ph.getLast hne))),
        Except.ok (user_to_json
          (User.mk u.user_id (dict_set u.uploads (ph.head hne) (ph.getLast hne))))) := by
  cases ph with
  | nil => exact absurd rfl hne
  | cons a t =>
      unfold update_user_uploads
      rw [hu]
      rfl

/-- C1 counterexample: `sample_info_root` passes validation and has no
`parent_id` key, yet against a store where the owning user does not exist,
`add_image` raises `AttributeError` (through the broken lazy user creation
inside `update_user_uploads`) and stores no image record at all, so it
neither persists the claimed record nor returns the reduced
representation. -/
theorem C1_counterexample_missing_user :
    image_parameter_check sample_info_root = Except.ok sample_info_root ∧
      sample_info_root.hasKey "parent_id" = false ∧
      (add_image (DBState.mk [] []) 0 "u1" sample_info_root).2 =
        Except.error (PyError.attributeError
          "dict object has no attribute uploads") ∧
      (add_image (DBState.mk [] []) 0 "u1" sample_info_root).1.images = [] :=
  ⟨rfl, by decide, rfl, by decide⟩

/-- C1 (amended): for every valid `image_info` (passing parameter
validation, with a recognized process name) that contains no `parent_id`
key, *provided the owning user already exists in the store*, `add_image`
stores a record whose `process_history` equals `[image_id]` and whose
`parent_id` equals `"root"`, and returns a reduced representation
containing only `image_id` and `user_id`. -/
theorem C1_add_image_no_parent_amended (S : DBState) (current_time : Nat)
    (user_id : String) (info : PyVal) (u : User)
    (hu : find_user S user_id = Option.some u)
    (hv : image_parameter_check info = Except.ok info)
    (hp : info.hasKey "parent_id" = false) :
    (add_image S current_time user_id info).2 =
        Except.ok { image_id := (info.get "image_id").getStr,
                    user_id := user_id } ∧
      ∃ img : Image,
        find_image (add_image S current_time user_id info).1
            ((info.get "image_id").getStr) = Option.some img ∧
        img.process_history = [(info.get "image_id").getStr] ∧
        img.parent_id = "root" := by
  have hupd := update_user_uploads_found S user_id
    ((info.get "image_id").getStr) [] u hu
  constructor
  · simp [add_image, hv, hp, hupd, image_to_json]
  · refine ⟨Image.mk ((info.get "image_id").getStr) user_id current_time
        (if info.hasKey "description" = false then "None"
          else (info.get "description").getStr)
        "root" [] [(info.get "image_id").getStr]
        (if info.hasKey "processing_time" then (info.get "processing_time").getInt
          else (-1 : Int))
        ((info.get "process").getStr), ?_, rfl, rfl⟩
    simp [add_image, hv, hp, hupd]
    exact find_image_save_image_self _ _

/-- C1 witness: a store already holding the user `u1`. -/
theorem C1_add_image_no_parent_amended_witness :
    find_user (DBState.mk [] [sample_user]) "u1" = Option.some sample_user ∧
      image_parameter_check sample_info_root = Except.ok sample_info_root ∧
      sample_info_root.hasKey "parent_id" = false ∧
      ((add_image (DBState.mk [] [sample_user]) 0 "u1" sample_info_root).2 =
          Except.ok { image_id := (sample_info_root.get "image_id").getStr,
                      user_id := "u1" } ∧
        ∃ img : Image,
          find_image (add_image (DBState.mk [] [sample_user]) 0 "u1"
                sample_info_root).1
              ((sample_info_root.get "image_id").getStr) = Option.some img ∧
          img.process_history = [(sample_info_root.get "image_id").getStr] ∧
          img.parent_id = "root") :=
  ⟨by decide, rfl, by decide,
    C1_add_image_no_parent_amended (DBState.mk [] [sample_user]) 0 "u1"
      sample_info_root sample_user (by decide) rfl (by decide)⟩

/-- C2 counterexample, two concrete instances on which the claim as stated
fails.  First: `sample_info_child` is valid and its `parent_id` names the
stored image `p1`, yet against a store where the owning user does not
exist, `add_image` raises `AttributeError` and no record with the new id
is ever stored — so no stored record carries the extended process history
the claim requires.  Second: `sample_info_self` is valid and its
`parent_id` `p1` names a stored image, but its `image_id` is also `p1`;
the parent append does happen, yet the final save of the new record is a
primary-key upsert that replaces the parent document, so the resulting
store holds a single `p1` record with empty `child_ids` — the appended
child id survives in no stored record.  Each instance makes one of the
extra hypotheses of the amended theorem necessary. -/
theorem C2_counterexample_missing_user_and_self_parent :
    (image_parameter_check sample_info_child = Except.ok sample_info_child ∧
      find_image (DBState.mk [sample_parent] [])
          ((sample_info_child.get "parent_id").getStr) =
        Option.some sample_parent ∧
      (add_image (DBState.mk [sample_parent] []) 0 "u1" sample_info_child).2 =
        Except.error (PyError.attributeError
          "dict object has no attribute uploads") ∧
      find_image
          (add_image (DBState.mk [sample_parent] []) 0 "u1" sample_info_child).1
          "c1" = Option.none) ∧
    (image_parameter_check sample_info_self = Except.ok sample_info_self ∧
      find_image (DBState.mk [sample_parent] [sample_user])
          ((sample_info_self.get "parent_id").getStr) =
        Option.some sample_parent ∧
      add_image (DBState.mk [sample_parent] [sample_user]) 0 "u1"
          sample_info_self =
        (DBState.mk [Image.mk "p1" "u1" 0 "None" "p1" [] ["p1", "p1"] 3 "blur"]
            [User.mk "u1" [("p1", "p1")]],
          Except.ok (ImageJson.mk "p1" "u1"))) :=
  ⟨⟨rfl, by decide, rfl, by decide⟩, ⟨rfl, by decide, rfl⟩⟩

/-- C2 (amended): for every valid `image_info` whose `parent_id` names an
image `P` already present in the store, *provided the owning user already
exists and the new id differs from the parent id*, `add_image` appends the
new image id to the stored `child_ids` list of `P` and stores a new record
whose `process_history` equals the `process_history` of `P` extended by
that one identifier (with `parent_id` pointing at `P`), returning the
reduced json. -/
theorem C2_add_image_with_parent_amended (S : DBState) (current_time : Nat)
    (user_id : String) (info : PyVal) (P : Image) (u : User)
    (hP : find_image S ((info.get "parent_id").getStr) = Option.some P)
    (hu : find_user S user_id = Option.some u)
    (hv : image_parameter_check info = Except.ok info)
    (hp : info.hasKey "parent_id" = true)
    (hne : (info.get "image_id").getStr ≠ (info.get "parent_id").getStr) :
    (add_image S current_time user_id info).2 =
        Except.ok { image_id := (info.get "image_id").getStr,
                    user_id := user_id } ∧
      find_image (add_image S current_time user_id info).1
          ((info.get "parent_id").getStr) =
        Option.some { P with child_ids :=
          P.child_ids ++ [(info.get "image_id").getStr] } ∧
      ∃ img : Image,
        find_image (add_image S current_time user_id info).1
            ((info.get "image_id").getStr) = Option.some img ∧
        img.process_history =
          P.process_history ++ [(info.get "image_id").getStr] ∧
        img.parent_id = (info.get "parent_id").getStr := by
  have hPid : P.image_id = (info.get "parent_id").getStr := by
    have h2 := hP
    unfold find_image at h2
    have h3 := List.find?_some h2
    simpa using h3
  have hchild : add_child S ((info.get "image_id").getStr)
      ((info.get "parent_id").getStr) =
      (save_image S { P with child_ids :=
          P.child_ids ++ [(info.get "image_id").getStr] },
        Option.some ((info.get "image_id").getStr)) := by
    unfold add_child
    rw [hP]
  have hphne : P.process_history ++ [(info.get "image_id").getStr] ≠ [] := by
    simp
  have hu2 : find_user (save_image S { P with child_ids :=
      P.child_ids ++ [(info.get "image_id").getStr] }) user_id =
      Option.some u := by
    rw [find_user_save_image]
    exact hu
  have hupd := update_user_uploads_found_ne
    (save_image S { P with child_ids :=
        P.child_ids ++ [(info.get "image_id").getStr] })
    user_id (P.process_history ++ [(info.get "image_id").getStr]) u hphne hu2
  refine ⟨?_, ?_, ?_⟩
  · simp [add_image, hv, hp, hP, hchild, hupd, image_to_json]
  · simp [add_image, hv, hp, hP, hchild, hupd]
    rw [find_image_save_image_ne]
    · rw [find_image_save_user, ← hPid]
      exact find_image_save_image_self _ _
    · exact Ne.symm hne
  · refine ⟨Image.mk ((info.get "image_id").getStr) user_id current_time
        (if info.hasKey "description" = false then "None"
          else (info.get "description").getStr)
        ((info.get "parent_id").getStr) []
        (P.process_history ++ [(info.get "image_id").getStr])
        (if info.hasKey "processing_time" then (info.get "processing_time").getInt
          else (-1 : Int))
        ((info.get "process").getStr), ?_, rfl, rfl⟩
    simp [add_image, hv, hp, hP, hchild, hupd]
    exact find_image_save_image_self _ _

/-- C2 witness: a store holding the parent image `p1` and the user `u1`. -/
theorem C2_add_image_with_parent_amended_witness :
    find_image (DBState.mk [sample_parent] [sample_user])
        ((sample_info_child.get "parent_id").getStr) =
      Option.some sample_parent ∧
      ((add_image (DBState.mk [sample_parent] [sample_user]) 0 "u1"
            sample_info_child).2 =
          Except.ok { image_id := (sample_info_child.get "image_id").getStr,
                      user_id := "u1" } ∧
        find_image (add_image (DBState.mk [sample_parent] [sample_user]) 0 "u1"
              sample_info_child).1
            ((sample_info_child.get "parent_id").getStr) =
          Option.some { sample_parent with child_ids :=
            sample_parent.child_ids ++ [(sample_info_child.get "image_id").getStr] } ∧
        ∃ img : Image,
          find_image (add_image (DBState.mk [sample_parent] [sample_user]) 0 "u1"
                sample_info_child).1
              ((sample_info_child.get "image_id").getStr) = Option.some img ∧
          img.process_history =
            sample_parent.process_history ++
              [(sample_info_child.get "image_id").getStr] ∧
          img.parent_id = (sample_info_child.get "parent_id").getStr) :=
  ⟨by decide,
    C2_add_image_with_parent_amended (DBState.mk [sample_parent] [sample_user])
      0 "u1" sample_info_child sample_parent sample_user (by decide) (by decide)
      rfl (by decide) (by decide)⟩
